import Mathlib

/-!
Verification development for the RestaurantOrderVoiceAgent repository.

The embedding translates the conversation core of the repository:
  - app/services/agent/state.py        (OrderItem, ConversationState)
  - app/services/agent/stages.py       (ConversationStage)
  - app/services/agent/agent.py        (AgentService.process_user_input)
  - app/services/call_session/manager.py (CallSessionManager.process_user_speech
       and its action handlers)
  - app/services/ordering/parser.py    (OrderParser.parse_agent_action,
       validate_order_item)
  - app/services/menu/in_memory_menu.py (validate_item, get_item_by_name)

Modelling conventions:
  - The intent-extraction service (the LLM call) is an external collaborator;
    it is modelled as an oracle input `LLMOutcome`: either the parsed JSON
    object (with the dict-getter defaults of the code already applied), a
    JSON decode failure, or another failure.  Prompt construction and logging
    are input to that external call or pure output and are not modelled; in
    particular the read of a pending-notes attribute that agent.py performs
    only while logging and while building the prompt is outside the model.
  - Demo mode is not modelled: the `demo_mode` flag that agent.py consults is
    not defined by app/core/config.py as staged under src/, and a demo
    response is just one particular oracle value of the extraction service.
  - The database and Twilio layers are external: persistence success is an
    oracle Bool, and the TwiML wrapper around the reply text is dropped; a
    turn returns the reply text plus whether the hangup response was built.
  - Python str values are Lean String; the helpers below reproduce the exact
    Python primitives used (lower, strip, substring containment, len).
  - Python float prices are modelled as exact rationals; no theorem below
    depends on the rendered total text of a non-empty read-back.
-/

namespace VoiceAgent

/-- Single-quote character as a string, used to build the phrase constants of
the source (the source literals contain apostrophes). -/
def aq : String := String.mk [Char.ofNat 39]

/-- Whitespace test matching Python str.strip default (ASCII whitespace as it
occurs in this codebase). -/
def pyIsSpace (c : Char) : Bool :=
  c == ' ' || c == '\t' || c == '\n' || c == '\r' || c == Char.ofNat 11 || c == Char.ofNat 12

/-- Python str.lower (the strings of this codebase are ASCII). -/
def pyLower (s : String) : String := String.mk (s.data.map Char.toLower)

/-- Python str.strip with no argument: drop leading and trailing whitespace. -/
def pyStrip (s : String) : String :=
  String.mk (((s.data.dropWhile pyIsSpace).reverse.dropWhile pyIsSpace).reverse)

/-- Whether the second list starts with the first. -/
def listIsPrefixOf : List Char → List Char → Bool
  | [], _ => true
  | _ :: _, [] => false
  | p :: ps, c :: cs => p == c && listIsPrefixOf ps cs

/-- Whether `pat` occurs as a contiguous run inside `s`. -/
def listHasRun (pat : List Char) : List Char → Bool
  | [] => pat.isEmpty
  | c :: cs => listIsPrefixOf pat (c :: cs) || listHasRun pat cs

/-- Python `pat in s` substring test. -/
def pyContains (s pat : String) : Bool := listHasRun pat.data s.data

/-- Python len() of a string. -/
def pyLen (s : String) : Nat := s.data.length

/-- Python `any(p in s for p in pats)`. -/
def containsAny (s : String) (pats : List String) : Bool :=
  pats.any (fun p => pyContains s p)

/-- Python `sep.join(parts)`. -/
def pyJoin (sep : String) : List String → String
  | [] => ""
  | [x] => x
  | x :: xs => x ++ sep ++ pyJoin sep xs

/-- Conversation stages.  app/services/agent/stages.py defines the members
GREETING, ORDERING, REVIEW and CONCLUSION.  Modelled from the spec: the
REVISION member is referenced by agent.py and manager.py but its definition is
not among the files staged under src/ (stages.py as staged lists only the
other four), so the five-state machine of spec section 4.2 is modelled here
with `revision` included. -/
inductive ConversationStage
  | greeting
  | ordering
  | review
  | revision
  | conclusion
deriving DecidableEq

/-- Order item held in conversation state (state.py, class OrderItem). -/
structure OrderItem where
  item_name : String
  quantity : Int
  modifiers : List String
deriving DecidableEq

/-- Conversation state (state.py, class ConversationState).  The
`menu_context` field only feeds the prompt of the external extraction call
and is not modelled. -/
structure ConversationState where
  call_sid : String
  transcript : List String
  current_order : List OrderItem
  stage : ConversationStage
  pending_modifiers_item_name : Option String
  pending_modifiers_item_index : Option Nat
  order_read_back : Bool
  turn_count : Nat
  consecutive_errors : Nat
deriving DecidableEq

/-- state.py add_transcript_turn. -/
def ConversationState.add_transcript_turn (s : ConversationState) (role text : String) :
    ConversationState :=
  { s with transcript := s.transcript ++ [role ++ ": " ++ text] }

/-- state.py add_order_item: append to the current order. -/
def ConversationState.add_order_item (s : ConversationState) (item : OrderItem) :
    ConversationState :=
  { s with current_order := s.current_order ++ [item] }

/-- state.py has_items. -/
def ConversationState.has_items (s : ConversationState) : Bool :=
  decide (0 < s.current_order.length)

/-- Menu item (menu/base.py); the float price is modelled as a rational. -/
structure MenuItem where
  name : String
  price : Option ℚ
  options : List String
deriving DecidableEq

/-- The menu is the item list of the in-memory provider. -/
abbrev Menu := List MenuItem

/-- in_memory_menu.py validate_item: case-insensitive exact name match after
lowering and stripping the query. -/
def validate_item (menu : Menu) (item_name : String) : Bool :=
  let item_name_lower := pyStrip (pyLower item_name)
  menu.any (fun item => pyLower item.name == item_name_lower)

/-- in_memory_menu.py get_item_by_name: first item whose lowered name equals
the lowered, stripped query. -/
def get_item_by_name (menu : Menu) (item_name : String) : Option MenuItem :=
  let item_name_lower := pyStrip (pyLower item_name)
  menu.find? (fun item => pyLower item.name == item_name_lower)

/-- Value of the quantity key of an action dict: a number (the source
truncates a float with int(); a numeric value is modelled by that integer),
or some non-numeric JSON value (the parser then falls back to 1). -/
inductive QuantityVal
  | num (n : Int)
  | nonNum
deriving DecidableEq

/-- Value of the modifiers key of an action dict: the code accepts a string
(wrapped into a one-element list) or a list of strings. -/
inductive ModifiersVal
  | str (s : String)
  | list (xs : List String)
deriving DecidableEq

/-- Fields of an action dict that the code reads; a missing key is `none`. -/
structure ActionFields where
  type? : Option String := Option.none
  item_name? : Option String := Option.none
  quantity? : Option QuantityVal := Option.none
  modifiers? : Option ModifiersVal := Option.none
deriving DecidableEq

/-- The action value of the extraction result: a dict or some non-dict JSON
value (manager.py lines 212-217 downgrade the latter). -/
inductive AgentAction
  | dict (f : ActionFields)
  | notDict
deriving DecidableEq

/-- The fields of the dict the code writes as a downgraded action. -/
def noneActionFields : ActionFields := { type? := some "none" }

/-- The downgraded action dict, as the code writes it. -/
def noneAction : AgentAction := AgentAction.dict noneActionFields

/-- The extraction result dict with the dict-getter defaults of the code
already applied: response and intent default to the empty string, action to
an empty dict, error to false (nothing in the agent ever sets error). -/
structure AgentResponseDict where
  response : String := ""
  intent : String := ""
  action : AgentAction := AgentAction.dict {}
  error : Bool := false
deriving DecidableEq

/-- Outcome of the external LLM call inside process_user_input: the parsed
JSON object, a json.JSONDecodeError, or any other exception. -/
inductive LLMOutcome
  | ok (r : AgentResponseDict)
  | jsonDecodeError
  | otherFailure
deriving DecidableEq

/-- agent.py lines 265-274: done-ordering indicator phrases. -/
def doneOrderingIndicators : List String :=
  ["that" ++ aq ++ "s all",
   "that" ++ aq ++ "s it",
   "nothing else",
   "i" ++ aq ++ "m done",
   "i" ++ aq ++ "m finished",
   "that" ++ aq ++ "s everything",
   "no that" ++ aq ++ "s all",
   "no thanks that" ++ aq ++ "s all"]

/-- agent.py lines 301-304: revision indicator phrases (the inline list the
live code uses, not the unused list in constants.py). -/
def revisionIndicators : List String :=
  ["change", "remove", "delete", "don" ++ aq ++ "t want", "cancel",
   "take out", "add", "actually", "wait", "hold on", "no wait"]

/-- agent.py line 308: confirmation indicator phrases. -/
def confirmationIndicators : List String :=
  ["yes", "correct", "that" ++ aq ++ "s right", "sounds good", "perfect",
   "that works", "looks good"]

/-- manager.py line 272: keywords asking to repeat the order in review. -/
def repeatKeywords : List String :=
  ["repeat", "say that again", "what did", "can you repeat", "tell me again",
   "what was"]

/-- manager.py line 105: reply to an empty or whitespace-only utterance. -/
def msgEmptySpeech : String :=
  "I didn" ++ aq ++ "t catch that. Could you please repeat what you" ++ aq ++ "d like?"

/-- manager.py line 116: reply to an utterance shorter than 2 characters. -/
def msgShortSpeech : String :=
  "I didn" ++ aq ++ "t quite get that. Could you please say that again?"

/-- manager.py lines 133-136: forced-transfer reply at the turn limit. -/
def msgTurnLimit : String :=
  "I apologize, but I" ++ aq ++ "m having difficulty completing your order. " ++
  "Would you like me to transfer you to someone who can help?"

/-- manager.py line 171: apology substituted for an empty agent reply. -/
def msgEmptyResponse : String :=
  "I" ++ aq ++ "m sorry, I didn" ++ aq ++ "t understand that. Could you please repeat?"

/-- manager.py lines 187-190: forced-transfer reply after 3 consecutive
errors. -/
def msgTooManyErrors : String :=
  "I" ++ aq ++ "m having trouble understanding you. " ++
  "Would you like me to transfer you to someone who can help with your order?"

/-- agent.py lines 247-251: fallback returned on a JSON decode failure. -/
def msgFallbackJson : String :=
  "I" ++ aq ++ "m sorry, I didn" ++ aq ++ "t understand that. Could you repeat?"

/-- agent.py lines 252-257: fallback returned on any other LLM failure. -/
def msgFallbackOther : String :=
  "I" ++ aq ++ "m having trouble processing that. Could you try again?"

/-- config.py: restaurant_name default. -/
def restaurant_name : String := "Mama Marias"

/-- manager.py line 254: farewell after a successfully persisted order. -/
def msgFarewell : String :=
  "Perfect! Thank you for calling " ++ restaurant_name ++
  "! Your order will be ready in 30 minutes."

/-- manager.py lines 262-265: apology when order persistence fails. -/
def msgPersistFailed : String :=
  "I" ++ aq ++ "m sorry, we" ++ aq ++ "re having technical difficulties. " ++
  "Please call us back in a few minutes to place your order."

/-- agent.py line 281: reply when the caller is done ordering but the order
is empty. -/
def msgEmptyOrderYet : String :=
  "I don" ++ aq ++ "t see any items in your order yet. What would you like to order?"

/-- agent.py line 324: reply when review is reached with an empty order. -/
def msgEmptyOrderReview : String :=
  "I don" ++ aq ++ "t see any items in your order. What would you like to order?"

/-- agent.py fallback dict for a JSON decode failure (lines 246-251). -/
def fallbackJsonDict : AgentResponseDict :=
  { response := msgFallbackJson, intent := "asking_question", action := noneAction }

/-- agent.py fallback dict for any other LLM failure (lines 252-257). -/
def fallbackOtherDict : AgentResponseDict :=
  { response := msgFallbackOther, intent := "asking_question", action := noneAction }

/-- agent.py lines 264-291: server-side done-ordering detection.  When the
utterance contains a done-ordering phrase while the stage is ordering, either
refuse (empty order: reply and intent are overridden, action downgraded) or
move to review, reset the read-back flag and clear the reply for the manager
to substitute the read-back. -/
def doneOrderingBlock (state : ConversationState) (user_input_lower : String)
    (agent_response : AgentResponseDict) : ConversationState × AgentResponseDict :=
  let is_done_ordering := containsAny user_input_lower doneOrderingIndicators
  if is_done_ordering = true ∧ state.stage = ConversationStage.ordering then
    if state.has_items = false then
      (state,
       { agent_response with
          response := msgEmptyOrderYet, intent := "ordering", action := noneAction })
    else
      ({ state with stage := ConversationStage.review, order_read_back := false },
       { agent_response with response := "", intent := "reviewing", action := noneAction })
  else
    (state, agent_response)

/-- agent.py lines 296-343: the stage-update chain, evaluated on the stage as
it stands after the done-ordering block.  In review the code checks the
empty-order guard first, then confirmation (its comment reads: check for
confirmation FIRST, go to CONCLUSION), and only then revision. -/
def stageUpdateBlock (state : ConversationState) (user_input_lower : String)
    (agent_response : AgentResponseDict) : ConversationState × AgentResponseDict :=
  let intent := agent_response.intent
  let wants_revision := containsAny user_input_lower revisionIndicators
  let is_confirming := containsAny user_input_lower confirmationIndicators
  if state.stage = ConversationStage.greeting then
    ({ state with stage := ConversationStage.ordering }, agent_response)
  else if state.stage = ConversationStage.ordering then
    if intent = "reviewing" ∨ pyContains user_input_lower ("that" ++ aq ++ "s all") = true
        ∨ pyContains user_input_lower ("that" ++ aq ++ "s it") = true then
      -- the source also re-clears an already-empty reply here, a no-op
      ({ state with stage := ConversationStage.review, order_read_back := false },
       agent_response)
    else
      (state, agent_response)
  else if state.stage = ConversationStage.review then
    if state.has_items = false then
      ({ state with stage := ConversationStage.ordering },
       { agent_response with response := msgEmptyOrderReview, intent := "ordering" })
    else if intent = "concluding" ∨ is_confirming = true then
      ({ state with stage := ConversationStage.conclusion },
       { agent_response with intent := "completing", response := "" })
    else if intent = "revising" ∨ wants_revision = true then
      ({ state with stage := ConversationStage.revision },
       { agent_response with intent := "revising" })
    else
      (state, agent_response)
  else if state.stage = ConversationStage.revision then
    if intent = "reviewing" ∨ pyContains user_input_lower ("that" ++ aq ++ "s all") = true
        ∨ pyContains user_input_lower "done" = true
        ∨ pyContains user_input_lower ("that" ++ aq ++ "s it") = true then
      ({ state with stage := ConversationStage.review, order_read_back := false },
       { agent_response with response := "", intent := "reviewing" })
    else
      (state, agent_response)
  else
    (state, agent_response)

/-- agent.py process_user_input (lines 160-358), with the LLM call as an
oracle.  Appends the customer turn to the transcript; on an LLM failure
returns the fallback dict at once (lines 245-257); otherwise runs the
done-ordering block, appends the agent turn, and runs the stage-update
chain. -/
def process_user_input (state : ConversationState) (user_input : String)
    (llm : LLMOutcome) : ConversationState × AgentResponseDict :=
  let state := state.add_transcript_turn "Customer" user_input
  match llm with
  | LLMOutcome.jsonDecodeError => (state, fallbackJsonDict)
  | LLMOutcome.otherFailure => (state, fallbackOtherDict)
  | LLMOutcome.ok llm_response =>
    let user_input_lower := pyStrip (pyLower user_input)
    let (state, agent_response) := doneOrderingBlock state user_input_lower llm_response
    let state := state.add_transcript_turn "Agent" agent_response.response
    stageUpdateBlock state user_input_lower agent_response

/-- manager.py _is_action_allowed_in_stage (lines 346-372): the fixed table of
legal action kinds per stage.  The revision row transcribes the
ConversationStage.REVISION entry of the source dict; that enum member is
spec-modelled (see ConversationStage). -/
def is_action_allowed_in_stage (action_type : String) (stage : ConversationStage) : Bool :=
  let allowed : List String :=
    match stage with
    | ConversationStage.greeting => ["none"]
    | ConversationStage.ordering => ["add_item", "none"]
    | ConversationStage.review => ["none"]
    | ConversationStage.revision => ["add_item", "remove_item", "modify_item", "none"]
    | ConversationStage.conclusion => ["none"]
  allowed.contains action_type

/-- parser.py parse_agent_action (lines 13-43): build an OrderItem from an
add_item action dict; any other type, or a blank item name, parses to none. -/
def parse_agent_action (action : ActionFields) : Option OrderItem :=
  let action_type := action.type?.getD ""
  if action_type = "add_item" then
    let item_name := pyStrip (action.item_name?.getD "")
    if item_name = "" then
      Option.none
    else
      let quantity : Int :=
        match action.quantity?.getD (QuantityVal.num 1) with
        | QuantityVal.num n => max 1 n
        | QuantityVal.nonNum => 1
      let modifiers : List String :=
        match action.modifiers?.getD (ModifiersVal.list []) with
        | ModifiersVal.str s => [s]
        | ModifiersVal.list xs => xs
      some { item_name := item_name, quantity := quantity,
             modifiers := (modifiers.filter (fun m => m ≠ "")).map pyStrip }
  else
    Option.none

/-- parser.py validate_order_item (lines 45-73): the only error is an unknown
menu item; the modifier loop of the source never records an error. -/
def validate_order_item (menu : Menu) (item : OrderItem) : Bool × List String :=
  let errors : List String :=
    if validate_item menu item.item_name = false then
      ["Item " ++ aq ++ item.item_name ++ aq ++ " is not on the menu"]
    else []
  (errors.isEmpty, errors)

/-- manager.py _handle_add_item (lines 374-427): parse, validate, and on
success append to the order, leaving the reply text untouched (the source
comment reads: no automatic follow-up questions); on a validation failure
append the first error to the reply. -/
def handle_add_item (menu : Menu) (action : ActionFields) (state : ConversationState)
    (response_text : String) : ConversationState × String :=
  match parse_agent_action action with
  | Option.none => (state, response_text)
  | some order_item =>
    let v := validate_order_item menu order_item
    if v.1 = true then
      (state.add_order_item
        { item_name := order_item.item_name, quantity := order_item.quantity,
          modifiers := order_item.modifiers },
       response_text)
    else
      (state,
       match v.2 with
       | [] => response_text
       | e :: _ => response_text ++ " " ++ e)

/-- manager.py _handle_add_modifiers (lines 429-446): deprecated, does
nothing. -/
def handle_add_modifiers (state : ConversationState) (response_text : String) :
    ConversationState × String :=
  (state, response_text)

/-- manager.py lines 468 and 474-477: the remove_item replies. -/
def msgRemoved (item_name : String) : String :=
  "Removed " ++ item_name ++ " from your order. Anything else you" ++ aq ++
  "d like to change?"

/-- Reply when the named item is not in the order (shared wording of the
remove and modify handlers). -/
def msgNotInOrder (item_name : String) : String :=
  "I don" ++ aq ++ "t see " ++ item_name ++ " in your order. " ++
  "What else would you like to change?"

/-- manager.py _handle_remove_item (lines 448-478): keep every item whose
lowered name differs from the stripped, lowered requested name; report
removal when the list shrank, otherwise report not-found. -/
def handle_remove_item (action : ActionFields) (state : ConversationState)
    (response_text : String) : ConversationState × String :=
  let item_name := pyLower (pyStrip (action.item_name?.getD ""))
  if item_name = "" then
    (state, response_text)
  else
    let original_count := state.current_order.length
    let new_order := state.current_order.filter (fun item => pyLower item.item_name ≠ item_name)
    let state := { state with current_order := new_order }
    let removed_count := original_count - new_order.length
    if 0 < removed_count then
      (state, msgRemoved item_name)
    else
      (state, msgNotInOrder item_name)

/-- Replace the modifiers of the first item whose lowered name matches; none
when there is no match (the loop of _handle_modify_item returns at the first
hit). -/
def modifyFirst (item_name : String) (mods : List String) :
    List OrderItem → Option (List OrderItem)
  | [] => Option.none
  | item :: rest =>
    if pyLower item.item_name = item_name then
      some ({ item with modifiers := mods } :: rest)
    else
      (modifyFirst item_name mods rest).map (fun r => item :: r)

/-- manager.py _handle_modify_item (lines 480-515).  The source reads the
modifiers key as a string and strips it; a list value would fault in Python
and is modelled as the empty string (no theorem below touches this
handler). -/
def handle_modify_item (action : ActionFields) (state : ConversationState)
    (response_text : String) : ConversationState × String :=
  let item_name := pyLower (pyStrip (action.item_name?.getD ""))
  let modifiers_text :=
    match action.modifiers?.getD (ModifiersVal.str "") with
    | ModifiersVal.str s => pyStrip s
    | ModifiersVal.list _ => ""
  if item_name = "" then
    (state, response_text)
  else
    match modifyFirst item_name (if modifiers_text = "" then [] else [modifiers_text])
        state.current_order with
    | some new_order => ({ state with current_order := new_order }, "Updated " ++ item_name ++ ". Anything else you" ++ aq ++ "d like to change?")
    | Option.none => (state, msgNotInOrder item_name)

/-- manager.py lines 212-227: replace a non-dict or type-less action by the
downgraded dict, then downgrade any action whose type is not legal for the
current stage. -/
def validated_action (a : AgentAction) (stage : ConversationStage) : ActionFields :=
  let f : ActionFields :=
    match a with
    | AgentAction.notDict => noneActionFields
    | AgentAction.dict f => if f.type?.isNone then noneActionFields else f
  let action_type := f.type?.getD "none"
  if is_action_allowed_in_stage action_type stage then f else noneActionFields

/-- manager.py lines 229-241: dispatch on the action type. -/
def dispatch_action (menu : Menu) (action : ActionFields) (state : ConversationState)
    (response_text : String) : ConversationState × String :=
  let t := action.type?.getD ""
  if t = "add_item" then handle_add_item menu action state response_text
  else if t = "add_modifiers" then handle_add_modifiers state response_text
  else if t = "remove_item" then handle_remove_item action state response_text
  else if t = "modify_item" then handle_modify_item action state response_text
  else (state, response_text)

/-- config.py: tax_rate default 0.0925, as an exact rational. -/
def tax_rate : ℚ := 925 / 10000

/-- manager.py lines 287-298: the spoken item list of the read-back. -/
def order_summary_tts (items : List OrderItem) : String :=
  let item_parts := items.map (fun item =>
    let qty_str := if 1 < item.quantity then toString item.quantity ++ " " else ""
    let mod_str := if item.modifiers.isEmpty then "" else " with " ++ pyJoin ", " item.modifiers
    qty_str ++ item.item_name ++ mod_str)
  match item_parts with
  | [] => ""
  | [p] => p
  | [p1, p2] => p1 ++ " and " ++ p2
  | parts => pyJoin ", " parts.dropLast ++ ", and " ++ parts.getLastD ""

/-- manager.py lines 300-305: subtotal over menu prices; the source tests the
price for truthiness, so a missing, null or zero price contributes nothing. -/
def compute_subtotal (menu : Menu) (items : List OrderItem) : ℚ :=
  items.foldl (fun acc item =>
    match get_item_by_name menu item.item_name with
    | some menu_item =>
      match menu_item.price with
      | some p => if p = 0 then acc else acc + p * (item.quantity : ℚ)
      | Option.none => acc
    | Option.none => acc) 0

/-- Fixed-point rendering of the total with two decimals (the source formats
a Python float; exact-rational rounding stands in for float rounding, and no
theorem below depends on this text). -/
def fmt_total (total : ℚ) : String :=
  let cents : Int := round (total * 100)
  let dollars := cents / 100
  let rem := (cents % 100).toNat
  let rem_str := if rem < 10 then "0" ++ toString rem else toString rem
  toString dollars ++ "." ++ rem_str

/-- manager.py lines 279-314: the read-back reply composed on entering review
(or on a repeat request). -/
def review_readback_response (menu : Menu) (items : List OrderItem) : String :=
  if items.isEmpty then
    "Perfect! Here" ++ aq ++ "s your order: " ++ "No items in order yet." ++
    ". Does that look correct?"
  else
    let subtotal := compute_subtotal menu items
    let tax := subtotal * tax_rate
    let total := subtotal + tax
    let total_text := " Your total is $" ++ fmt_total total ++ "."
    "Perfect! Here" ++ aq ++ "s your order: " ++ order_summary_tts items ++ "." ++
    total_text ++ " Does that look correct?"

/-- manager.py _persist_order (lines 517-563): an empty order is skipped and
reported as success; otherwise the database outcome is the oracle Bool. -/
def persist_order_success (persistOk : Bool) (state : ConversationState) : Bool :=
  if state.current_order.isEmpty then true else persistOk

/-- Result of one orchestration turn: the session state left behind, the reply
text rendered into the telephony response, and whether the hangup response
(conclusion TwiML) was built rather than a gather. -/
structure TurnOutcome where
  state : ConversationState
  reply : String
  hangup : Bool
deriving DecidableEq

/-- manager.py lines 165-171: an empty or whitespace-only agent reply is
treated as an error and replaced by the apology; otherwise the error flag and
reply pass through. -/
def empty_reply_check (agent_response : AgentResponseDict) : Bool × String :=
  if pyStrip agent_response.response = "" then
    (true, msgEmptyResponse)
  else
    (agent_response.error, agent_response.response)

/-- manager.py lines 174-210: a failure turn increments the consecutive error
count; at 3 or more the stage is forced to conclusion with the transfer
offer, otherwise the clarification reply is returned; either way action
processing is skipped. -/
def failure_turn (state : ConversationState) (response_text : String) : TurnOutcome :=
  let state := { state with consecutive_errors := state.consecutive_errors + 1 }
  if 3 ≤ state.consecutive_errors then
    ⟨{ state with stage := ConversationStage.conclusion }, msgTooManyErrors, false⟩
  else
    ⟨state, response_text, false⟩

/-- manager.py lines 243-267: on a confirming or completing intent the order
is persisted; on completing the stage is forced to conclusion with the
farewell, or the technical-difficulties apology when persistence failed. -/
def conclude_step (persistOk : Bool) (state : ConversationState) (intent : String)
    (response_text : String) : ConversationState × String :=
  if intent = "confirming_order" ∨ intent = "completing" then
    let persist_success := persist_order_success persistOk state
    if intent = "completing" then
      if persist_success = true then
        ({ state with stage := ConversationStage.conclusion }, msgFarewell)
      else
        ({ state with stage := ConversationStage.conclusion }, msgPersistFailed)
    else
      (state, response_text)
  else
    (state, response_text)

/-- manager.py lines 268-320: on the first review turn (or a repeat request)
the reply is replaced by the deterministic read-back and the read-back flag
set. -/
def readback_step (menu : Menu) (state : ConversationState)
    (speech_result response_text : String) : ConversationState × String :=
  let speech_lower := pyLower speech_result
  let is_asking_repeat :=
    if state.stage = ConversationStage.review ∧ speech_result ≠ "" then
      containsAny speech_lower repeatKeywords
    else
      false
  if state.stage = ConversationStage.review ∧
      (state.order_read_back = false ∨ is_asking_repeat = true) then
    ({ state with order_read_back := true },
     review_readback_response menu state.current_order)
  else
    (state, response_text)

/-- manager.py lines 212-344 on a non-failure turn: validate and dispatch the
action, run the conclude and read-back steps, and build the hangup response
exactly when the stage ends at conclusion. -/
def action_and_reply_step (menu : Menu) (persistOk : Bool) (state : ConversationState)
    (agent_response : AgentResponseDict) (speech_result response_text : String) :
    TurnOutcome :=
  let action := validated_action agent_response.action state.stage
  let dr := dispatch_action menu action state response_text
  let pr := conclude_step persistOk dr.1 agent_response.intent dr.2
  let rb := readback_step menu pr.1 speech_result pr.2
  if rb.1.stage = ConversationStage.conclusion then
    ⟨rb.1, rb.2, true⟩
  else
    ⟨rb.1, rb.2, false⟩

/-- manager.py lines 149-344: the part of process_user_speech that runs on
the agent result.  Substitutes the apology for an empty reply and counts
consecutive errors (a failure turn returns at once), otherwise resets the
error count and runs action dispatch, conclude and read-back. -/
def post_agent_turn (menu : Menu) (persistOk : Bool) (state : ConversationState)
    (agent_response : AgentResponseDict) (speech_result : String) : TurnOutcome :=
  let he := empty_reply_check agent_response
  if he.1 = true then
    failure_turn state he.2
  else
    action_and_reply_step menu persistOk { state with consecutive_errors := 0 }
      agent_response speech_result he.2

/-- manager.py lines 144-344: the body of process_user_speech after the
governor accepted the utterance and incremented the turn counter: run the
agent (line 145), then the post-agent part on its result. -/
def accepted_turn (menu : Menu) (persistOk : Bool) (state : ConversationState)
    (speech_result : String) (llm : LLMOutcome) : TurnOutcome :=
  post_agent_turn menu persistOk
    (process_user_input state speech_result llm).1
    (process_user_input state speech_result llm).2
    speech_result

/-- manager.py process_user_speech (lines 82-344).  An absent, empty,
whitespace-only or shorter-than-2-character utterance is rejected with a
fixed reply and no state change; otherwise the turn counter is incremented,
the 20-turn governor may force conclusion with the transfer offer, and the
accepted turn runs. -/
def process_user_speech (menu : Menu) (persistOk : Bool) (state : ConversationState)
    (speech_result : Option String) (llm : LLMOutcome) : TurnOutcome :=
  match speech_result with
  | Option.none => ⟨state, msgEmptySpeech, false⟩
  | some speech =>
    if pyStrip speech = "" then
      ⟨state, msgEmptySpeech, false⟩
    else if pyLen (pyStrip speech) < 2 then
      ⟨state, msgShortSpeech, false⟩
    else
      let state := { state with turn_count := state.turn_count + 1 }
      if 20 ≤ state.turn_count then
        ⟨{ state with stage := ConversationStage.conclusion }, msgTurnLimit, false⟩
      else
        accepted_turn menu persistOk state speech llm

/-! Concrete instances used by the closed theorems below (one set per claim;
`base_state` is the freshly initialised conversation state of
initialize_state, with the stage advanced as each scenario needs). -/

/-- A one-item menu holding the burger of the test fixtures (price 10.00). -/
def burger_menu : Menu :=
  [{ name := "burger", price := some 10, options := ["no onions", "extra cheese", "well done"] }]

/-- Freshly initialised state for a call (initialize_state), advanced to the
ordering stage as after the first turn. -/
def base_state : ConversationState :=
  { call_sid := "CA1", transcript := [], current_order := [],
    stage := ConversationStage.ordering, pending_modifiers_item_name := Option.none,
    pending_modifiers_item_index := Option.none, order_read_back := false,
    turn_count := 0, consecutive_errors := 0 }

/-- An extraction result carrying no action. -/
def plain_llm_response (resp intent : String) : AgentResponseDict :=
  { response := resp, intent := intent, action := noneAction }

/-- C1 scenario: ordering stage with one burger in the order. -/
def c1_state : ConversationState :=
  { base_state with current_order := [{ item_name := "burger", quantity := 1, modifiers := [] }] }

/-- C2 scenario: review stage with one burger in the order. -/
def c2_state : ConversationState :=
  { c1_state with stage := ConversationStage.review, order_read_back := true }

/-- C2 scenario utterance containing both a confirmation phrase and revision
phrases. -/
def c2_input : String := "yes actually remove the fries"

/-- C6 scenario: ordering stage with two consecutive failures already
recorded. -/
def c6_state : ConversationState :=
  { base_state with consecutive_errors := 2, turn_count := 3 }

/-- C7 scenario: states after 19 and after 5 accepted turns. -/
def c7_state_19 : ConversationState := { base_state with turn_count := 19 }

/-- C9 scenario: an order holding two entries whose names match
case-insensitively. -/
def c9_state : ConversationState :=
  { base_state with
      stage := ConversationStage.revision,
      current_order :=
        [{ item_name := "burger", quantity := 1, modifiers := [] },
         { item_name := "Burger", quantity := 2, modifiers := ["extra cheese"] }] }

/-- C9 remove action naming the item with spaces and capitals. -/
def c9_action : ActionFields :=
  { type? := some "remove_item", item_name? := some " Burger " }

/-- C9 witness state: one burger only. -/
def c9w_state : ConversationState :=
  { base_state with
      stage := ConversationStage.revision,
      current_order := [{ item_name := "burger", quantity := 1, modifiers := [] }] }

/-- C4 add action for a burger with no notes supplied. -/
def c4_action : ActionFields :=
  { type? := some "add_item", item_name? := some "burger",
    quantity? := some (QuantityVal.num 1) }

/-- C4 witness action: a burger with notes supplied. -/
def c4w_action : ActionFields :=
  { type? := some "add_item", item_name? := some "burger",
    quantity? := some (QuantityVal.num 2),
    modifiers? := some (ModifiersVal.str "no onions") }

/-- C5 extraction result: a remove_item action proposed while ordering. -/
def c5_response : AgentResponseDict :=
  { response := "Removing that.", intent := "ordering",
    action := AgentAction.dict { type? := some "remove_item", item_name? := some "burger" } }

/-- C10 scenario: review stage with an empty order. -/
def c10_state : ConversationState :=
  { base_state with stage := ConversationStage.review, turn_count := 4 }

/-! Helper lemmas about the embedding, shared by the claim theorems below. -/

@[simp] theorem add_transcript_turn_stage (s : ConversationState) (a b : String) :
    (s.add_transcript_turn a b).stage = s.stage := rfl

@[simp] theorem add_transcript_turn_current_order (s : ConversationState) (a b : String) :
    (s.add_transcript_turn a b).current_order = s.current_order := rfl

@[simp] theorem add_transcript_turn_has_items (s : ConversationState) (a b : String) :
    (s.add_transcript_turn a b).has_items = s.has_items := rfl

@[simp] theorem add_transcript_turn_turn_count (s : ConversationState) (a b : String) :
    (s.add_transcript_turn a b).turn_count = s.turn_count := rfl

@[simp] theorem add_transcript_turn_consecutive_errors (s : ConversationState) (a b : String) :
    (s.add_transcript_turn a b).consecutive_errors = s.consecutive_errors := rfl

@[simp] theorem add_transcript_turn_pending_index (s : ConversationState) (a b : String) :
    (s.add_transcript_turn a b).pending_modifiers_item_index = s.pending_modifiers_item_index := rfl

@[simp] theorem add_transcript_turn_order_read_back (s : ConversationState) (a b : String) :
    (s.add_transcript_turn a b).order_read_back = s.order_read_back := rfl

theorem process_user_input_ok (state : ConversationState) (input : String)
    (r : AgentResponseDict) :
    process_user_input state input (LLMOutcome.ok r) =
      stageUpdateBlock
        ((doneOrderingBlock (state.add_transcript_turn "Customer" input)
            (pyStrip (pyLower input)) r).1.add_transcript_turn "Agent"
          (doneOrderingBlock (state.add_transcript_turn "Customer" input)
            (pyStrip (pyLower input)) r).2.response)
        (pyStrip (pyLower input))
        (doneOrderingBlock (state.add_transcript_turn "Customer" input)
          (pyStrip (pyLower input)) r).2 := rfl

theorem doneOrderingBlock_not_ordering (s : ConversationState) (ul : String)
    (r : AgentResponseDict) (h : s.stage ≠ ConversationStage.ordering) :
    doneOrderingBlock s ul r = (s, r) := by
  simp only [doneOrderingBlock]
  rw [if_neg]
  exact fun hc => h hc.2

theorem doneOrderingBlock_cases (s : ConversationState) (ul : String)
    (r : AgentResponseDict) :
    doneOrderingBlock s ul r = (s, r) ∨
      (doneOrderingBlock s ul r).2.action = noneAction := by
  simp only [doneOrderingBlock]
  split_ifs <;> simp

theorem doneOrderingBlock_current_order (s : ConversationState) (ul : String)
    (r : AgentResponseDict) :
    (doneOrderingBlock s ul r).1.current_order = s.current_order := by
  simp only [doneOrderingBlock]
  split_ifs <;> rfl

theorem doneOrderingBlock_consecutive_errors (s : ConversationState) (ul : String)
    (r : AgentResponseDict) :
    (doneOrderingBlock s ul r).1.consecutive_errors = s.consecutive_errors := by
  simp only [doneOrderingBlock]
  split_ifs <;> rfl

theorem stageUpdateBlock_action (s : ConversationState) (ul : String)
    (r : AgentResponseDict) :
    (stageUpdateBlock s ul r).2.action = r.action := by
  simp only [stageUpdateBlock]
  split_ifs <;> rfl

theorem stageUpdateBlock_current_order (s : ConversationState) (ul : String)
    (r : AgentResponseDict) :
    (stageUpdateBlock s ul r).1.current_order = s.current_order := by
  simp only [stageUpdateBlock]
  split_ifs <;> rfl

theorem stageUpdateBlock_consecutive_errors (s : ConversationState) (ul : String)
    (r : AgentResponseDict) :
    (stageUpdateBlock s ul r).1.consecutive_errors = s.consecutive_errors := by
  simp only [stageUpdateBlock]
  split_ifs <;> rfl

theorem stageUpdateBlock_ordering_stage (s : ConversationState) (ul : String)
    (r : AgentResponseDict) (h : s.stage = ConversationStage.ordering) :
    (stageUpdateBlock s ul r).1.stage = ConversationStage.ordering ∨
      (stageUpdateBlock s ul r).1.stage = ConversationStage.review := by
  simp only [stageUpdateBlock, h]
  split_ifs <;> simp [h]

theorem process_user_input_current_order (state : ConversationState) (input : String)
    (llm : LLMOutcome) :
    (process_user_input state input llm).1.current_order = state.current_order := by
  cases llm with
  | jsonDecodeError => rfl
  | otherFailure => rfl
  | ok r =>
    rw [process_user_input_ok]
    rw [stageUpdateBlock_current_order, add_transcript_turn_current_order,
      doneOrderingBlock_current_order, add_transcript_turn_current_order]

theorem validated_action_noneAction (st : ConversationStage) :
    validated_action noneAction st = noneActionFields := by
  cases st <;> rfl

theorem dispatch_action_none (menu : Menu) (st : ConversationState) (resp : String) :
    dispatch_action menu noneActionFields st resp = (st, resp) := rfl

theorem pyStrip_ne_empty_of_two_le {s : String} (h : 2 ≤ pyLen (pyStrip s)) :
    ¬ pyStrip s = "" := by
  intro he
  rw [he] at h
  simp [pyLen] at h

theorem process_user_speech_accepted (menu : Menu) (persistOk : Bool)
    (state : ConversationState) (speech : String) (llm : LLMOutcome)
    (hne : ¬ pyStrip speech = "") (hnlt : ¬ pyLen (pyStrip speech) < 2)
    (hturn : ¬ 20 ≤ state.turn_count + 1) :
    process_user_speech menu persistOk state (some speech) llm =
      accepted_turn menu persistOk { state with turn_count := state.turn_count + 1 }
        speech llm := by
  simp only [process_user_speech, if_neg hne, if_neg hnlt]
  rw [if_neg]
  exact hturn

theorem stageUpdateBlock_review_empty (s : ConversationState) (ul : String)
    (r : AgentResponseDict) (hstage : s.stage = ConversationStage.review)
    (hhi : s.has_items = false) :
    stageUpdateBlock s ul r =
      ({ s with stage := ConversationStage.ordering },
       { r with response := msgEmptyOrderReview, intent := "ordering" }) := by
  simp [stageUpdateBlock, hstage, hhi]

theorem stageUpdateBlock_review_confirming (s : ConversationState) (ul : String)
    (r : AgentResponseDict) (hstage : s.stage = ConversationStage.review)
    (hhi : s.has_items = true)
    (hconf : containsAny ul confirmationIndicators = true) :
    stageUpdateBlock s ul r =
      ({ s with stage := ConversationStage.conclusion },
       { r with intent := "completing", response := "" }) := by
  simp [stageUpdateBlock, hstage, hhi, hconf]

theorem stageUpdateBlock_review_revising (s : ConversationState) (ul : String)
    (r : AgentResponseDict) (hstage : s.stage = ConversationStage.review)
    (hhi : s.has_items = true)
    (hconf : containsAny ul confirmationIndicators = false)
    (hint : r.intent ≠ "concluding")
    (hrev : r.intent = "revising" ∨ containsAny ul revisionIndicators = true) :
    stageUpdateBlock s ul r =
      ({ s with stage := ConversationStage.revision },
       { r with intent := "revising" }) := by
  simp [stageUpdateBlock, hstage, hhi, hconf, hint]
  rcases hrev with h | h <;> simp [h]

theorem process_user_input_ordering_action (state : ConversationState) (input : String)
    (r : AgentResponseDict) (hstage : state.stage = ConversationStage.ordering) :
    (process_user_input state input (LLMOutcome.ok r)).2.action = noneAction ∨
    ((process_user_input state input (LLMOutcome.ok r)).2.action = r.action ∧
     ((process_user_input state input (LLMOutcome.ok r)).1.stage = ConversationStage.ordering ∨
      (process_user_input state input (LLMOutcome.ok r)).1.stage = ConversationStage.review)) := by
  rw [process_user_input_ok]
  rcases doneOrderingBlock_cases (state.add_transcript_turn "Customer" input)
      (pyStrip (pyLower input)) r with h | h
  · right
    rw [h]
    dsimp only
    refine ⟨stageUpdateBlock_action _ _ _, ?_⟩
    exact stageUpdateBlock_ordering_stage _ _ _ (by simp [hstage])
  · left
    rw [stageUpdateBlock_action]
    exact h

theorem validated_action_remove_not_allowed (f : ActionFields)
    (htype : f.type? = some "remove_item") (st : ConversationStage)
    (hst : st = ConversationStage.ordering ∨ st = ConversationStage.review) :
    validated_action (AgentAction.dict f) st = noneActionFields := by
  have h1 : is_action_allowed_in_stage "remove_item" ConversationStage.ordering = false := by
    decide
  have h2 : is_action_allowed_in_stage "remove_item" ConversationStage.review = false := by
    decide
  rcases hst with h | h <;> subst h <;> simp [validated_action, htype, h1, h2]

theorem failure_turn_current_order (st : ConversationState) (resp : String) :
    (failure_turn st resp).state.current_order = st.current_order := by
  simp only [failure_turn]
  split_ifs <;> rfl

theorem conclude_step_current_order (persistOk : Bool) (st : ConversationState)
    (intent resp : String) :
    (conclude_step persistOk st intent resp).1.current_order = st.current_order := by
  simp only [conclude_step]
  split_ifs <;> rfl

theorem readback_step_current_order (menu : Menu) (st : ConversationState)
    (sp resp : String) :
    (readback_step menu st sp resp).1.current_order = st.current_order := by
  simp only [readback_step]
  split_ifs <;> rfl

theorem action_and_reply_step_order_of_none (menu : Menu) (persistOk : Bool)
    (st : ConversationState) (pr : AgentResponseDict) (sp resp : String)
    (hva : validated_action pr.action st.stage = noneActionFields) :
    (action_and_reply_step menu persistOk st pr sp resp).state.current_order =
      st.current_order := by
  simp only [action_and_reply_step, hva, dispatch_action_none]
  split_ifs <;>
    simp [conclude_step_current_order, readback_step_current_order]

theorem post_agent_turn_order_of_none (menu : Menu) (persistOk : Bool)
    (ps : ConversationState) (pr : AgentResponseDict) (speech : String)
    (hva : validated_action pr.action ps.stage = noneActionFields) :
    (post_agent_turn menu persistOk ps pr speech).state.current_order =
      ps.current_order := by
  simp only [post_agent_turn]
  split_ifs
  · exact failure_turn_current_order _ _
  · rw [action_and_reply_step_order_of_none]
    exact hva

theorem accepted_turn_remove_preserves (menu : Menu) (persistOk : Bool)
    (s : ConversationState) (speech : String) (r : AgentResponseDict)
    (f : ActionFields) (hstage : s.stage = ConversationStage.ordering)
    (haction : r.action = AgentAction.dict f)
    (htype : f.type? = some "remove_item") :
    (accepted_turn menu persistOk s speech (LLMOutcome.ok r)).state.current_order =
      s.current_order := by
  have hva : validated_action (process_user_input s speech (LLMOutcome.ok r)).2.action
      (process_user_input s speech (LLMOutcome.ok r)).1.stage = noneActionFields := by
    rcases process_user_input_ordering_action s speech r hstage with h | ⟨h1, h2⟩
    · rw [h]
      exact validated_action_noneAction _
    · rw [h1, haction]
      exact validated_action_remove_not_allowed f htype _ h2
  unfold accepted_turn
  rw [post_agent_turn_order_of_none _ _ _ _ _ hva, process_user_input_current_order]

theorem list_filter_length_lt_iff {α : Type} (p : α → Bool) (l : List α) :
    (l.filter p).length < l.length ↔ l.any (fun a => !p a) = true := by
  induction l with
  | nil => simp
  | cons a t ih =>
    by_cases h : p a
    · simp [List.filter_cons, h, ih]
    · simp only [List.filter_cons, h, if_false, Bool.false_eq_true, List.any_cons]
      have := List.length_filter_le p t
      simp [h]
      omega

theorem list_filter_eq_self_of_not_any {α : Type} (p : α → Bool) (l : List α)
    (h : l.any (fun a => !p a) = false) : l.filter p = l := by
  induction l with
  | nil => rfl
  | cons a t ih =>
    simp only [List.any_cons, Bool.or_eq_false_iff] at h
    have hpa : p a = true := by
      rcases h with ⟨h1, _⟩
      cases hx : p a
      · rw [hx] at h1
        exact absurd h1 (by simp)
      · rfl
    simp [List.filter_cons, hpa, ih h.2]

theorem list_filter_idem {α : Type} (p : α → Bool) (l : List α) :
    (l.filter p).filter p = l.filter p := by
  induction l with
  | nil => rfl
  | cons a t ih => by_cases h : p a <;> simp [List.filter_cons, h, ih]

theorem post_agent_turn_plain (menu : Menu) (persistOk : Bool) (ps : ConversationState)
    (pr : AgentResponseDict) (speech : String)
    (hresp : ¬ pyStrip pr.response = "") (herr : pr.error = false)
    (hact : validated_action pr.action ps.stage = noneActionFields)
    (hint1 : pr.intent ≠ "confirming_order") (hint2 : pr.intent ≠ "completing")
    (hrev : ps.stage ≠ ConversationStage.review)
    (hconc : ps.stage ≠ ConversationStage.conclusion) :
    post_agent_turn menu persistOk ps pr speech =
      ⟨{ ps with consecutive_errors := 0 }, pr.response, false⟩ := by
  have hcint : ¬ (pr.intent = "confirming_order" ∨ pr.intent = "completing") :=
    fun hc => hc.elim hint1 hint2
  simp only [post_agent_turn, empty_reply_check, if_neg hresp, herr,
    Bool.false_eq_true, if_false, action_and_reply_step, hact, dispatch_action_none,
    conclude_step, if_neg hcint, readback_step, eq_false hrev, eq_false hconc,
    false_and, if_false]

/-! The claims. -/

/-- C1: the claim says a successful Ordering to Review transition with a
non-empty order delivers the canonical read-back and is not a failure turn.
On the code, the Stage Transition Engine clears the reply (stage moves to
review), but the manager treats the empty reply as an error before the
read-back block runs: the caller hears the generic apology and
consecutiveFailureCount is incremented. -/
theorem c1_cleared_reply_counted_as_failure :
    (process_user_speech burger_menu true c1_state
        (some ("that" ++ aq ++ "s all"))
        (LLMOutcome.ok (plain_llm_response "Anything else?" "ordering"))).reply
      = msgEmptyResponse ∧
    (process_user_speech burger_menu true c1_state
        (some ("that" ++ aq ++ "s all"))
        (LLMOutcome.ok (plain_llm_response "Anything else?" "ordering"))).state.consecutive_errors
      = 1 ∧
    (process_user_speech burger_menu true c1_state
        (some ("that" ++ aq ++ "s all"))
        (LLMOutcome.ok (plain_llm_response "Anything else?" "ordering"))).state.stage
      = ConversationStage.review := by
  decide

/-- C2 counterexample: in Review with a non-empty order, an utterance that
contains both a confirmation phrase (yes) and revision phrases (actually,
remove) moves the stage to Conclusion, not Revision, even when the extracted
intent is revising. -/
theorem c2_counterexample_both_phrases :
    (process_user_input c2_state c2_input
        (LLMOutcome.ok (plain_llm_response "Okay" "revising"))).1.stage
      = ConversationStage.conclusion ∧
    (process_user_input c2_state c2_input
        (LLMOutcome.ok (plain_llm_response "Okay" "revising"))).1.stage
      ≠ ConversationStage.revision := by
  decide

/-- C2 (amended): in the Review stage with a non-empty order the confirmation
check takes priority: any utterance containing a confirmation phrase moves
the stage to Conclusion (intent forced to completing, reply cleared), even
when a revision phrase is present; the revision check is evaluated only when
no confirmation phrase is present and the intent is not concluding. -/
theorem c2_confirmation_checked_first (state : ConversationState) (input : String)
    (r : AgentResponseDict) (hstage : state.stage = ConversationStage.review)
    (hitems : state.current_order ≠ []) :
    (containsAny (pyStrip (pyLower input)) confirmationIndicators = true →
       (process_user_input state input (LLMOutcome.ok r)).1.stage
           = ConversationStage.conclusion ∧
       (process_user_input state input (LLMOutcome.ok r)).2.intent = "completing") ∧
    (containsAny (pyStrip (pyLower input)) confirmationIndicators = false →
     r.intent ≠ "concluding" →
     (r.intent = "revising" ∨
        containsAny (pyStrip (pyLower input)) revisionIndicators = true) →
       (process_user_input state input (LLMOutcome.ok r)).1.stage
           = ConversationStage.revision ∧
       (process_user_input state input (LLMOutcome.ok r)).2.intent = "revising") := by
  have hhi : state.has_items = true := by
    simp only [ConversationState.has_items, decide_eq_true_eq, List.length_pos]
    exact hitems
  have h1 : (state.add_transcript_turn "Customer" input).stage
      ≠ ConversationStage.ordering := by
    simp [hstage]
  constructor
  · intro hconf
    rw [process_user_input_ok, doneOrderingBlock_not_ordering _ _ _ h1]
    dsimp only
    rw [stageUpdateBlock_review_confirming _ _ _ (by simp [hstage]) (by simp [hhi]) hconf]
    exact ⟨rfl, rfl⟩
  · intro hconf hint hrev
    rw [process_user_input_ok, doneOrderingBlock_not_ordering _ _ _ h1]
    dsimp only
    rw [stageUpdateBlock_review_revising _ _ _ (by simp [hstage]) (by simp [hhi]) hconf
      hint hrev]
    exact ⟨rfl, rfl⟩

/-- C2 witness: with one burger in the order and the utterance of the
counterexample, the amended theorem applies and yields Conclusion. -/
theorem c2_witness :
    (process_user_input c2_state c2_input
        (LLMOutcome.ok (plain_llm_response "Okay" "concluding"))).1.stage
      = ConversationStage.conclusion ∧
    (process_user_input c2_state c2_input
        (LLMOutcome.ok (plain_llm_response "Okay" "concluding"))).2.intent
      = "completing" :=
  (c2_confirmation_checked_first c2_state c2_input
    (plain_llm_response "Okay" "concluding") rfl (by decide)).1 (by decide)

/-- C3: the claim says an empty order refuses the Ordering to Review
transition, the stage staying Ordering with a reply asking what the caller
would like.  On the code the guard fires and rewrites the reply, but the
intent-based transition block right after it moves the stage to Review
anyway for an utterance containing that-is-all, and the manager then
replaces the reply with the empty-order read-back. -/
theorem c3_empty_order_thats_all_reaches_review :
    (process_user_speech [] true base_state (some ("that" ++ aq ++ "s all"))
        (LLMOutcome.ok (plain_llm_response "Anything else?" "ordering"))).state.stage
      = ConversationStage.review ∧
    (process_user_speech [] true base_state (some ("that" ++ aq ++ "s all"))
        (LLMOutcome.ok (plain_llm_response "Anything else?" "ordering"))).state.stage
      ≠ ConversationStage.ordering ∧
    (process_user_speech [] true base_state (some ("that" ++ aq ++ "s all"))
        (LLMOutcome.ok (plain_llm_response "Anything else?" "ordering"))).reply
      = review_readback_response [] [] ∧
    (process_user_speech [] true base_state (some ("that" ++ aq ++ "s all"))
        (LLMOutcome.ok (plain_llm_response "Anything else?" "ordering"))).reply
      ≠ msgEmptyOrderYet := by
  decide

/-- C4 counterexample: a valid AddItem carrying no notes appends the item,
but the pending-clarification slot stays unset (none, not the item index)
and the reply is returned without any follow-up question. -/
theorem c4_counterexample_no_pending_slot :
    (handle_add_item burger_menu c4_action base_state "Great choice!").1.pending_modifiers_item_index
      = Option.none ∧
    (handle_add_item burger_menu c4_action base_state "Great choice!").1.pending_modifiers_item_index
      ≠ some 0 ∧
    (handle_add_item burger_menu c4_action base_state "Great choice!").2
      = "Great choice!" ∧
    (handle_add_item burger_menu c4_action base_state "Great choice!").1.current_order
      = [{ item_name := "burger", quantity := 1, modifiers := [] }] := by
  decide

/-- C4 (amended): for every AddItem action that parses and whose item is on
the menu, the Action Processor appends the parsed item (with its supplied
notes, empty when none were given) and returns the reply unchanged; the
pending-clarification slot is never set and no clarification is signalled,
whether or not notes were supplied. -/
theorem c4_add_item_appends_without_clarification (menu : Menu)
    (action : ActionFields) (state : ConversationState) (response_text : String)
    (item : OrderItem) (hparse : parse_agent_action action = some item)
    (hvalid : validate_item menu item.item_name = true) :
    handle_add_item menu action state response_text =
      ({ state with current_order := state.current_order ++ [item] }, response_text) ∧
    (handle_add_item menu action state response_text).1.pending_modifiers_item_index
      = state.pending_modifiers_item_index := by
  have hmain : handle_add_item menu action state response_text =
      ({ state with current_order := state.current_order ++ [item] }, response_text) := by
    simp [handle_add_item, hparse, validate_order_item, hvalid,
      ConversationState.add_order_item]
  exact ⟨hmain, by rw [hmain]⟩

/-- C4 witness: a burger with notes supplied is appended with those notes,
reply unchanged and pending slot untouched. -/
theorem c4_witness :
    handle_add_item burger_menu c4w_action base_state "Sure." =
      ({ base_state with current_order := base_state.current_order ++
          [{ item_name := "burger", quantity := 2, modifiers := ["no onions"] }] },
       "Sure.") ∧
    (handle_add_item burger_menu c4w_action base_state "Sure.").1.pending_modifiers_item_index
      = base_state.pending_modifiers_item_index :=
  c4_add_item_appends_without_clarification burger_menu c4w_action base_state "Sure."
    { item_name := "burger", quantity := 2, modifiers := ["no onions"] }
    (by decide) (by decide)

/-- C5 counterexample: AddNotes (action types add_notes, and the deprecated
add_modifiers) is not in the legal set of the Ordering stage, nor of the
Revision stage, so such an action is downgraded rather than reaching the
Action Processor. -/
theorem c5_counterexample_add_notes_not_legal :
    is_action_allowed_in_stage "add_notes" ConversationStage.ordering = false ∧
    is_action_allowed_in_stage "add_modifiers" ConversationStage.ordering = false ∧
    is_action_allowed_in_stage "add_notes" ConversationStage.revision = false ∧
    is_action_allowed_in_stage "add_modifiers" ConversationStage.revision = false := by
  decide

/-- C5 (amended): the legal sets are Greeting [none]; Ordering [add_item,
none]; Review [none]; Revision [add_item, remove_item, modify_item, none] -
AddNotes appears in no set - and a RemoveItem extracted while the stage is
Ordering is downgraded to none before the Action Processor runs, so the whole
turn leaves the order unmodified. -/
theorem c5_out_of_stage_action_downgraded (menu : Menu) (persistOk : Bool)
    (state : ConversationState) (speech? : Option String) (r : AgentResponseDict)
    (f : ActionFields) (hstage : state.stage = ConversationStage.ordering)
    (haction : r.action = AgentAction.dict f)
    (htype : f.type? = some "remove_item") :
    (process_user_speech menu persistOk state speech? (LLMOutcome.ok r)).state.current_order
      = state.current_order ∧
    is_action_allowed_in_stage "remove_item" ConversationStage.ordering = false ∧
    (∀ st, is_action_allowed_in_stage "add_notes" st = false) ∧
    is_action_allowed_in_stage "add_item" ConversationStage.ordering = true ∧
    (∀ st, is_action_allowed_in_stage "none" st = true) := by
  refine ⟨?_, by decide, fun st => by cases st <;> decide, by decide,
    fun st => by cases st <;> decide⟩
  cases speech? with
  | none => rfl
  | some speech =>
    by_cases h1 : pyStrip speech = ""
    · simp [process_user_speech, h1]
    · by_cases h2 : pyLen (pyStrip speech) < 2
      · simp [process_user_speech, h1, h2]
      · by_cases h3 : 20 ≤ state.turn_count + 1
        · simp [process_user_speech, h1, h2, h3]
        · rw [process_user_speech_accepted _ _ _ _ _ h1 h2 h3]
          exact accepted_turn_remove_preserves _ _ _ _ _ f (by simp [hstage])
            haction htype

/-- C5 witness: a remove_item extracted while ordering with one burger in the
order leaves the order unmodified. -/
theorem c5_witness :
    (process_user_speech burger_menu true c1_state (some "remove the burger")
        (LLMOutcome.ok c5_response)).state.current_order = c1_state.current_order :=
  (c5_out_of_stage_action_downgraded burger_menu true c1_state
    (some "remove the burger") c5_response
    { type? := some "remove_item", item_name? := some "burger" } rfl rfl rfl).1

/-- C6: the claim says every malformed-extraction turn increments
consecutiveFailureCount and the third forces Conclusion.  On the code the
agent converts a malformed result into a non-empty fallback apology carrying
no error flag, so the manager counts the turn as successful: with the count
at 2, a malformed turn resets it to 0 instead of reaching 3, and no transfer
is offered. -/
theorem c6_malformed_resets_failure_count :
    (process_user_speech [] true c6_state (some "two pepperoni pizzas")
        LLMOutcome.jsonDecodeError).state.consecutive_errors = 0 ∧
    (process_user_speech [] true c6_state (some "two pepperoni pizzas")
        LLMOutcome.jsonDecodeError).state.stage = ConversationStage.ordering ∧
    (process_user_speech [] true c6_state (some "two pepperoni pizzas")
        LLMOutcome.jsonDecodeError).reply = msgFallbackJson ∧
    (process_user_speech [] true c6_state (some "two pepperoni pizzas")
        LLMOutcome.jsonDecodeError).reply ≠ msgTooManyErrors := by
  decide

/-- C7: the governor never intervenes while the incremented turn count stays
below 20 (the turn proceeds to normal processing), and the accepted
utterance that brings turnCount to 20 forces the stage to Conclusion with
the transfer-offer reply, bypassing agent, action and transition
processing. -/
theorem c7_governor_at_twenty (menu : Menu) (persistOk : Bool)
    (state : ConversationState) (speech : String) (llm : LLMOutcome)
    (hlen : 2 ≤ pyLen (pyStrip speech)) :
    (state.turn_count = 19 →
      process_user_speech menu persistOk state (some speech) llm =
        ⟨{ state with turn_count := 20, stage := ConversationStage.conclusion },
         msgTurnLimit, false⟩) ∧
    (state.turn_count + 1 < 20 →
      process_user_speech menu persistOk state (some speech) llm =
        accepted_turn menu persistOk
          { state with turn_count := state.turn_count + 1 } speech llm) := by
  have hne := pyStrip_ne_empty_of_two_le hlen
  have hnlt : ¬ pyLen (pyStrip speech) < 2 := by omega
  constructor
  · intro h19
    simp [process_user_speech, if_neg hne, if_neg hnlt, h19]
  · intro hlt
    exact process_user_speech_accepted _ _ _ _ _ hne hnlt (by omega)

/-- C7 witness: after 19 accepted turns, the next accepted utterance forces
Conclusion with the transfer offer and turnCount 20. -/
theorem c7_witness :
    process_user_speech [] true c7_state_19 (some "hello there")
        (LLMOutcome.ok (plain_llm_response "Hi" "ordering")) =
      ⟨{ c7_state_19 with turn_count := 20, stage := ConversationStage.conclusion },
       msgTurnLimit, false⟩ :=
  (c7_governor_at_twenty [] true c7_state_19 "hello there"
    (LLMOutcome.ok (plain_llm_response "Hi" "ordering")) (by decide)).1 rfl

/-- C8: an absent, empty, whitespace-only or shorter-than-2-character
utterance is rejected with one of the two fixed rejection replies and the
session state is returned unchanged: no turn increment, no failure-count
change, no order or stage mutation, and no hangup. -/
theorem c8_short_utterance_rejected_unchanged (menu : Menu) (persistOk : Bool)
    (state : ConversationState) (llm : LLMOutcome) (speech? : Option String)
    (h : ∀ s, speech? = some s → pyLen (pyStrip s) < 2) :
    (process_user_speech menu persistOk state speech? llm).state = state ∧
    ((process_user_speech menu persistOk state speech? llm).reply = msgEmptySpeech ∨
     (process_user_speech menu persistOk state speech? llm).reply = msgShortSpeech) ∧
    (process_user_speech menu persistOk state speech? llm).hangup = false := by
  cases speech? with
  | none => exact ⟨rfl, Or.inl rfl, rfl⟩
  | some s =>
    have hs := h s rfl
    by_cases hstrip : pyStrip s = ""
    · refine ⟨?_, Or.inl ?_, ?_⟩ <;> simp [process_user_speech, hstrip]
    · refine ⟨?_, Or.inr ?_, ?_⟩ <;> simp [process_user_speech, hstrip, hs]

/-- C8 witness: a one-character utterance is rejected and the state is
unchanged. -/
theorem c8_witness :
    (process_user_speech [] true base_state (some "a")
        (LLMOutcome.ok (plain_llm_response "Hi" "ordering"))).state = base_state ∧
    ((process_user_speech [] true base_state (some "a")
        (LLMOutcome.ok (plain_llm_response "Hi" "ordering"))).reply = msgEmptySpeech ∨
     (process_user_speech [] true base_state (some "a")
        (LLMOutcome.ok (plain_llm_response "Hi" "ordering"))).reply = msgShortSpeech) ∧
    (process_user_speech [] true base_state (some "a")
        (LLMOutcome.ok (plain_llm_response "Hi" "ordering"))).hangup = false :=
  c8_short_utterance_rejected_unchanged [] true base_state
    (LLMOutcome.ok (plain_llm_response "Hi" "ordering")) (some "a")
    (by intro s hs; cases hs; decide)

/-- C9 counterexample: with two order entries whose names match
case-insensitively, RemoveItem removes them all - the order ends empty - not
only the first matching entry. -/
theorem c9_counterexample_removes_all :
    (handle_remove_item c9_action c9_state "ok").1.current_order = [] ∧
    (handle_remove_item c9_action c9_state "ok").1.current_order
      ≠ [{ item_name := "Burger", quantity := 2, modifiers := ["extra cheese"] }] := by
  decide

/-- C9 (amended): RemoveItem matches the stripped, lowered name
case-insensitively and exactly against orderItems and removes every matching
entry (reporting success); when no entry matches it reports not-found and
leaves the state unchanged; issuing the same RemoveItem twice is idempotent,
the second call mutating nothing and reporting not-found. -/
theorem c9_remove_removes_all_matches (action : ActionFields)
    (state : ConversationState) (resp : String) (nm : String)
    (hnm : pyLower (pyStrip (action.item_name?.getD "")) = nm) (hname : nm ≠ "") :
    (handle_remove_item action state resp).1.current_order
      = state.current_order.filter (fun it => pyLower it.item_name ≠ nm) ∧
    (state.current_order.any (fun it => pyLower it.item_name = nm) = true →
       (handle_remove_item action state resp).2 = msgRemoved nm) ∧
    (state.current_order.any (fun it => pyLower it.item_name = nm) = false →
       (handle_remove_item action state resp).1 = state ∧
       (handle_remove_item action state resp).2 = msgNotInOrder nm) ∧
    (handle_remove_item action (handle_remove_item action state resp).1 resp).1
      = (handle_remove_item action state resp).1 ∧
    (handle_remove_item action (handle_remove_item action state resp).1 resp).2
      = msgNotInOrder nm := by
  have hmain : ∀ st : ConversationState,
      handle_remove_item action st resp =
        (if 0 < st.current_order.length -
            (st.current_order.filter (fun it => pyLower it.item_name ≠ nm)).length then
          ({ st with current_order :=
              st.current_order.filter (fun it => pyLower it.item_name ≠ nm) },
           msgRemoved nm)
        else
          ({ st with current_order :=
              st.current_order.filter (fun it => pyLower it.item_name ≠ nm) },
           msgNotInOrder nm)) := by
    intro st
    simp only [handle_remove_item, hnm, if_neg hname]
  refine ⟨?_, ?_, ?_, ?_, ?_⟩
  · rw [hmain state]
    split_ifs <;> rfl
  · intro hany
    have hlt : (state.current_order.filter
        (fun it => pyLower it.item_name ≠ nm)).length
          < state.current_order.length := by
      rw [list_filter_length_lt_iff]
      simp only [decide_not, Bool.not_not]
      exact hany
    rw [hmain state, if_pos (Nat.sub_pos_of_lt hlt)]
  · intro hany
    have heq : state.current_order.filter
        (fun it => pyLower it.item_name ≠ nm) = state.current_order := by
      apply list_filter_eq_self_of_not_any
      simp only [decide_not, Bool.not_not]
      exact hany
    rw [hmain state, heq, Nat.sub_self, if_neg (Nat.lt_irrefl 0)]
    exact ⟨rfl, rfl⟩
  · rw [hmain state]
    split_ifs with hf <;>
    · rw [hmain _]
      dsimp only
      rw [list_filter_idem, Nat.sub_self, if_neg (Nat.lt_irrefl 0)]
  · rw [hmain state]
    split_ifs with hf <;>
    · rw [hmain _]
      dsimp only
      rw [list_filter_idem, Nat.sub_self, if_neg (Nat.lt_irrefl 0)]

/-- C9 witness: removing the burger (name given with spaces and capitals)
from a one-burger order empties it. -/
theorem c9_witness :
    (handle_remove_item c9_action c9w_state "ok").1.current_order
      = c9w_state.current_order.filter (fun it => pyLower it.item_name ≠ "burger") :=
  (c9_remove_removes_all_matches c9_action c9w_state "ok" "burger"
    (by decide) (by decide)).1

/-- C10: in the Review stage with an empty order, any utterance and intent
(with a plain action) is refused a Review to Conclusion transition: the
stage moves to Ordering and the delivered reply asks what the caller would
like to order, with no hangup. -/
theorem c10_review_empty_redirects (menu : Menu) (persistOk : Bool)
    (state : ConversationState) (speech : String) (r : AgentResponseDict)
    (hstage : state.stage = ConversationStage.review)
    (hempty : state.current_order = [])
    (haction : r.action = noneAction) (herr : r.error = false)
    (hlen : 2 ≤ pyLen (pyStrip speech)) (hturn : state.turn_count + 1 < 20) :
    (process_user_speech menu persistOk state (some speech)
        (LLMOutcome.ok r)).state.stage = ConversationStage.ordering ∧
    (process_user_speech menu persistOk state (some speech)
        (LLMOutcome.ok r)).reply = msgEmptyOrderReview ∧
    (process_user_speech menu persistOk state (some speech)
        (LLMOutcome.ok r)).hangup = false := by
  have hne := pyStrip_ne_empty_of_two_le hlen
  have hnlt : ¬ pyLen (pyStrip speech) < 2 := by omega
  rw [process_user_speech_accepted _ _ _ _ _ hne hnlt (by omega)]
  unfold accepted_turn
  have h1 : (({ state with turn_count := state.turn_count + 1 } :
      ConversationState).add_transcript_turn "Customer" speech).stage
        ≠ ConversationStage.ordering := by
    simp [hstage]
  rw [process_user_input_ok, doneOrderingBlock_not_ordering _ _ _ h1]
  dsimp only
  rw [stageUpdateBlock_review_empty _ _ _ (by simp [hstage])
    (by simp [ConversationState.has_items, hempty])]
  dsimp only
  have hpp : post_agent_turn menu persistOk
      { (({ state with turn_count := state.turn_count + 1 } :
            ConversationState).add_transcript_turn "Customer" speech).add_transcript_turn
          "Agent" r.response with stage := ConversationStage.ordering }
      { r with response := msgEmptyOrderReview, intent := "ordering" } speech =
      ⟨{ (({ state with turn_count := state.turn_count + 1 } :
            ConversationState).add_transcript_turn "Customer" speech).add_transcript_turn
          "Agent" r.response with
            stage := ConversationStage.ordering, consecutive_errors := 0 },
        msgEmptyOrderReview, false⟩ := by
    apply post_agent_turn_plain
    · show ¬ pyStrip msgEmptyOrderReview = ""
      decide
    · exact herr
    · show validated_action r.action ConversationStage.ordering = noneActionFields
      rw [haction]
      exact validated_action_noneAction _
    · show ("ordering" : String) ≠ "confirming_order"
      decide
    · show ("ordering" : String) ≠ "completing"
      decide
    · show ConversationStage.ordering ≠ ConversationStage.review
      decide
    · show ConversationStage.ordering ≠ ConversationStage.conclusion
      decide
  rw [hpp]
  exact ⟨rfl, rfl, rfl⟩

/-- C10 witness: a confirming utterance in Review with an empty order ends
the turn in Ordering with the ask-what-to-order reply. -/
theorem c10_witness :
    (process_user_speech [] true c10_state (some "yes please")
        (LLMOutcome.ok (plain_llm_response "OK" "concluding"))).state.stage
      = ConversationStage.ordering ∧
    (process_user_speech [] true c10_state (some "yes please")
        (LLMOutcome.ok (plain_llm_response "OK" "concluding"))).reply
      = msgEmptyOrderReview ∧
    (process_user_speech [] true c10_state (some "yes please")
        (LLMOutcome.ok (plain_llm_response "OK" "concluding"))).hangup = false :=
  c10_review_empty_redirects [] true c10_state "yes please"
    (plain_llm_response "OK" "concluding") rfl rfl rfl rfl (by decide) (by decide)

end VoiceAgent
